import Mathlib

/-!
Verification development for `lib/build-registered-datastore-instance.js`:
the capability-negotiation and dispatch layer that builds a "registered
datastore instance" (rdi) handle exposing `leaseConnection`, `sendStatement`,
`sendNativeQuery` and `transaction`.

The JavaScript is shallowly embedded: adapters are records whose optional
keys become `Option` fields (plain-object property semantics: a key is
either present with a value or absent), dictionaries keyed by strings become
association lists, opaque JavaScript values (functions, dictionaries,
managers) become `JsVal` reference identifiers, a synchronous throw during
registration becomes `Except`, and the asynchronous deferred object returned
by each datastore method becomes an explicit `Deferred` state whose eventual
execution is the pure function `execDeferred`.
-/

namespace SailsHookOrm

/-- An opaque JavaScript value (a function, a dictionary, a manager, ...),
identified by reference.  The embedded code never inspects these values; it
only stores and forwards them, so reference identity is all we model. -/
structure JsVal where
  ref : Nat
  deriving DecidableEq, Repr

/-- One entry of an adapter's `datastores` dictionary
(`adapter.datastores[datastoreName]` in the source).  Each field is `none`
when the corresponding key is absent (`_.has(entry, k)` is false) and
`some v` when present.  The `driver` value is modelled by the list of its
method names: the source only ever inspects `_.keys(entry.driver)`
(lines 139-141), never calls the methods during probing. -/
structure AdapterEntry where
  manager : Option JsVal := none
  driver : Option (List String) := none
  config : Option JsVal := none
  deriving DecidableEq, Repr

/-- An adapter object.  `datastores` is `none` when the adapter object has
no `datastores` property (`_.has(adapter, 'datastores')` is false), and
`some` an association list from datastore name to entry otherwise.
`compatibleWithHost` is the verdict of the registration-time compatibility
gate (see `checkAdapterCompatibility`). -/
structure Adapter where
  adapterApiVersion : Option Nat := none
  compatibleWithHost : Bool := true
  datastores : Option (List (String × AdapterEntry)) := none
  deriving DecidableEq, Repr

/-- Modelled from the spec: `lib/check-adapter-compatibility.js` is required
on line 56 of the source but is not under `src/`.  Per the spec (sections
4.2 and 7), it is an unconditional gate that aborts registration with a
fatal error when the adapter's declared version contract is incompatible
with the host's expected contract, and otherwise does nothing.  We model
the verdict of that check as the boolean descriptor `compatibleWithHost`
carried by the adapter. -/
def checkAdapterCompatibility (adapter : Adapter) : Bool :=
  adapter.compatibleWithHost

/-- An error produced via `flaverr(code, new Error(message))`: an `Error`
carrying a `code` property and a human-readable message. -/
structure FlavError where
  code : String
  message : String
  deriving DecidableEq, Repr

/-- Source lines 62-65: the common remediation suffix shared by every
structural `E_NOT_SUPPORTED` message. -/
def GENERIC_UNSUPPORTED_DSM_ERROR_MSG_SUFFIX : String :=
  "If there is an older/ newer version of this adapter, try updating the semver range for this dependency " ++
  "in your package.json file.  If you aren't sure, check the repo on GitHub, or contact the adapter's " ++
  "maintainer.  If you *are* the maintainer of this adapter and need help, visit http://sailsjs.com/support."

/-- Source lines 75-79: the message of the structural error assigned in the
branch taken when `_.has(adapter, 'datastores')` is true. -/
def msgNoDirectAccess (datastoreName : String) : String :=
  "The adapter used by the " ++ datastoreName ++ " datastore does not support " ++
  "direct access to its datastores (e.g. for leasing connections directly.)  " ++
  "It needs to expose its internal datastores in order for them to be used " ++
  "outside the adapter.\n" ++
  GENERIC_UNSUPPORTED_DSM_ERROR_MSG_SUFFIX

/-- Source lines 91-95: the message for a `datastores` dictionary that is
missing the expected reference to this datastore. -/
def msgMissingEntry (datastoreName : String) : String :=
  "The adapter used by the " ++ datastoreName ++ " datastore does not support " ++
  "direct access to its datastores (e.g. for leasing connections directly.)  " ++
  "The adapter's exposed `datastores` dictionary doesn't exist, is invalid, " ++
  "or is missing the expected reference to this datastore.\n" ++
  GENERIC_UNSUPPORTED_DSM_ERROR_MSG_SUFFIX

/-- Source lines 107-112: the message for a located entry that is missing
one or more of the mandatory keys `manager`, `driver`, `config`. -/
def msgIncompleteEntry (datastoreName : String) : String :=
  "The adapter used by the " ++ datastoreName ++ " datastore does not support " ++
  "direct access to its datastores (e.g. for leasing connections directly.)  " ++
  "The adapter's exposed `datastores` dictionary contains the expected reference " ++
  "to this datastore, but that reference is missing one or more mandatory keys " ++
  "(like `driver`, `manager`, or `config`).\n" ++
  GENERIC_UNSUPPORTED_DSM_ERROR_MSG_SUFFIX

/-- A synchronous throw during `buildRegisteredDatastoreInstance`. -/
inductive BuildException
  /-- The TypeError raised on source line 88 when `adapter.datastores` is
  `undefined` and the code evaluates `adapter.datastores[datastoreName]`. -/
  | typeErrorUndefinedDatastores
  /-- The fatal error thrown by the compatibility gate on source line 56. -/
  | incompatibleAdapter
  deriving DecidableEq, Repr

/-- Source lines 60-118: computation of
`genericDoesNotSupportDatastoreMethodsError`.  NOTE the guard on line 73 is
`if (_.has(adapter, 'datastores'))` (no negation): the structural error is
assigned in the branch where the adapter DOES have a `datastores` property,
while the `else` branch (lines 82-118) runs when it does not, so the member
access `adapter.datastores[datastoreName]` on line 88 dereferences
`undefined` and throws.  The inner logic of lines 89-116 is transcribed
inside the (unreachable) `some` arm of that access. -/
def locateGenericError (datastoreName : String) (adapter : Adapter) :
    Except BuildException (Option FlavError) :=
  if adapter.datastores.isSome then
    -- lines 74-80
    .ok (some { code := "E_NOT_SUPPORTED", message := msgNoDirectAccess datastoreName })
  else
    -- line 88: `var adapterDSEntry = adapter.datastores[datastoreName];`
    match adapter.datastores with
    | none => .error .typeErrorUndefinedDatastores
    | some ds =>
      match ds.lookup datastoreName with
      | none =>
        -- lines 89-96: `if (!adapterDSEntry) { ... }`
        .ok (some { code := "E_NOT_SUPPORTED", message := msgMissingEntry datastoreName })
      | some adapterDSEntry =>
        -- lines 105-113
        if !adapterDSEntry.manager.isSome || !adapterDSEntry.driver.isSome ||
            !adapterDSEntry.config.isSome then
          .ok (some { code := "E_NOT_SUPPORTED", message := msgIncompleteEntry datastoreName })
        else
          .ok none

/-- Source lines 143-148: the "connectable" interface layer's required
driver method names. -/
def CONNECTABLE_METHOD_NAMES : List String :=
  ["createManager", "destroyManager", "getConnection", "releaseConnection"]

/-- Source lines 151-156: the additional method names required by the
"queryable" interface layer. -/
def QUERYABLE_METHOD_NAMES : List String :=
  ["sendNativeQuery", "compileStatement", "parseNativeQueryResult", "parseNativeQueryError"]

/-- Source lines 159-163: the additional method names required by the
"transactional" interface layer. -/
def TRANSACTIONAL_METHOD_NAMES : List String :=
  ["beginTransaction", "commitTransaction", "rollbackTransaction"]

/-- Lodash `_.difference(a, b)`: the elements of `a` that do not occur
in `b`. -/
def jsDifference (a b : List String) : List String :=
  a.filter (fun x => !(b.contains x))

/-- Source lines 143-149: `isConnectable`. -/
def isConnectableOf (driverMethodNames : List String) : Bool :=
  (jsDifference CONNECTABLE_METHOD_NAMES driverMethodNames).length == 0

/-- Source lines 151-157: `isQueryable` (`isConnectable && ...`; the source
reuses the already-computed `isConnectable`, recomputed here). -/
def isQueryableOf (driverMethodNames : List String) : Bool :=
  isConnectableOf driverMethodNames &&
    (jsDifference QUERYABLE_METHOD_NAMES driverMethodNames).length == 0

/-- Source lines 159-164: `isTransactional` (`isQueryable && ...`). -/
def isTransactionalOf (driverMethodNames : List String) : Bool :=
  isQueryableOf driverMethodNames &&
    (jsDifference TRANSACTIONAL_METHOD_NAMES driverMethodNames).length == 0

/-- Source line 141: `_.keys(adapter.datastores[datastoreName].driver)`.
Only evaluated (line 137) when no structural error was recorded, in which
case the entry and its `driver` key exist (the assertion on line 139); the
`[]` fallbacks are therefore never taken on that path. -/
def driverMethodNamesOf (datastoreName : String) (adapter : Adapter) : List String :=
  match adapter.datastores with
  | none => []
  | some ds =>
    match ds.lookup datastoreName with
    | none => []
    | some entry => entry.driver.getD []

/-- The registered datastore instance (`rdi`): the fields stored on the
handle (source lines 42-52) together with the values closed over by its
four methods (`datastoreName`, `genericError` and the three interface-layer
flags).  A flag is `none` when the corresponding JavaScript variable was
left `undefined` (which happens whenever the structural error is set, since
line 137 guards the flag computation). -/
structure Rdi where
  datastoreName : String
  internalConfig : JsVal
  adapter : Adapter
  genericError : Option FlavError
  isConnectable : Option Bool
  isQueryable : Option Bool
  isTransactional : Option Bool
  deriving DecidableEq, Repr

/-- Source lines 39-166 (and 425): `buildRegisteredDatastoreInstance`.
Returns `.error` when registration throws synchronously, else `.ok` the
built handle state. -/
def buildRegisteredDatastoreInstance (datastoreName : String)
    (normalizedDatastoreConfig : JsVal) (adapter : Adapter) :
    Except BuildException Rdi :=
  -- line 45 (the local `adapterApiVersion` is unused later in the file)
  let _adapterApiVersion : Nat := adapter.adapterApiVersion.getD 0
  -- line 56: the compatibility gate throws on an incompatible adapter
  if checkAdapterCompatibility adapter = false then
    .error .incompatibleAdapter
  else
    match locateGenericError datastoreName adapter with
    | .error e => .error e
    | .ok genericDoesNotSupportDatastoreMethodsError =>
      -- lines 133-166: the flags are only computed when no structural
      -- error was recorded; otherwise the three variables stay undefined
      let flags : Option Bool × Option Bool × Option Bool :=
        if genericDoesNotSupportDatastoreMethodsError.isNone then
          let driverMethodNames := driverMethodNamesOf datastoreName adapter
          (some (isConnectableOf driverMethodNames),
           some (isQueryableOf driverMethodNames),
           some (isTransactionalOf driverMethodNames))
        else
          (none, none, none)
      .ok { datastoreName := datastoreName,
            internalConfig := normalizedDatastoreConfig,
            adapter := adapter,
            genericError := genericDoesNotSupportDatastoreMethodsError,
            isConnectable := flags.1,
            isQueryable := flags.2.1,
            isTransactional := flags.2.2 }

/-- The call-options record assembled by each of the four datastore methods
(e.g. source lines 204-210 for `leaseConnection`).  A field is `none` when
the corresponding key is absent or `undefined` (the two are interchangeable
for everything this code does with the record). -/
structure CallOptions where
  datastoreName : String
  adapter : Adapter
  during : Option JsVal := none
  statement : Option JsVal := none
  nativeQuery : Option JsVal := none
  meta : Option JsVal := none
  usingConnection : Option JsVal := none
  deriving DecidableEq, Repr

/-- The optional third argument `more` of each datastore method: a
dictionary whose present keys are shallow-merged over the assembled
call-options record by `_.extend(options, more)`. -/
structure More where
  datastoreName : Option String := none
  adapter : Option Adapter := none
  during : Option JsVal := none
  statement : Option JsVal := none
  nativeQuery : Option JsVal := none
  meta : Option JsVal := none
  usingConnection : Option JsVal := none
  deriving DecidableEq, Repr

/-- Lodash `_.extend(options, more)` restricted to the keys this code ever
puts in either record: every key present on `more` overwrites the value
assembled on `options`. -/
def extendOptions (options : CallOptions) (more : More) : CallOptions :=
  { datastoreName := more.datastoreName.getD options.datastoreName,
    adapter := more.adapter.getD options.adapter,
    during := match more.during with | some v => some v | none => options.during,
    statement := match more.statement with | some v => some v | none => options.statement,
    nativeQuery := match more.nativeQuery with | some v => some v | none => options.nativeQuery,
    meta := match more.meta with | some v => some v | none => options.meta,
    usingConnection :=
      match more.usingConnection with | some v => some v | none => options.usingConnection }

/-- Which of the four datastore methods produced a deferred. -/
inductive OpKind
  | leaseConnection
  | sendStatement
  | sendNativeQuery
  | transaction
  deriving DecidableEq, Repr

/-- The external driver-delegation helpers (source lines 10-13, invoked on
lines 231, 288, 349 and 410). -/
inductive DelegationHelper
  | helpLeaseConnection
  | helpSendStatement
  | helpSendNativeQuery
  | helpRunTransaction
  deriving DecidableEq, Repr

/-- What `_handleExec` does when the deferred is driven to completion:
either `done(error)` or a delegation to the external helper with the
current call-options record. -/
inductive Outcome
  | failed (error : FlavError)
  | delegated (helper : DelegationHelper) (options : CallOptions)
  deriving DecidableEq, Repr

/-- The deferred object returned by a datastore method before it is driven
to completion: the closed-over dispatch state (`genericError` and the three
flags), which method built it, and the mutable call-options record that the
chainable setters update. -/
structure Deferred where
  op : OpKind
  genericError : Option FlavError
  isConnectable : Option Bool
  isQueryable : Option Bool
  isTransactional : Option Bool
  options : CallOptions
  deriving DecidableEq, Repr

/-- Source lines 223-228 and the three analogous messages: the tier
`E_NOT_SUPPORTED` message, naming the datastore method and the missing
interface layer.  The four occurrences in the source differ only in those
two names. -/
def tierUnsupportedMessage (methodName interfaceLayer : String) : String :=
  "Cannot use `." ++ methodName ++ "()` with this datastore because the underlying adapter " ++
  "does not implement the \"" ++ interfaceLayer ++ "\" interface layer.  This may be because of a " ++
  "natural limitation of the technology, or it could just be that the adapter's " ++
  "developer(s) have not finished implementing one or more driver methods."

/-- Source lines 202-242: `rdi.leaseConnection(_during, explicitCb, more)`.
Assembles the call-options record (lines 204-210), merges `more` when
provided (lines 212-214), and returns the parley deferred whose
`_handleExec` is modelled by `execDeferred`. -/
def Rdi.leaseConnection (rdi : Rdi) (during : JsVal) (more : Option More) : Deferred :=
  let options : CallOptions :=
    { datastoreName := rdi.datastoreName, adapter := rdi.adapter, during := some during }
  let options := match more with | some m => extendOptions options m | none => options
  { op := OpKind.leaseConnection,
    genericError := rdi.genericError,
    isConnectable := rdi.isConnectable,
    isQueryable := rdi.isQueryable,
    isTransactional := rdi.isTransactional,
    options := options }

/-- Source lines 258-304: `rdi.sendStatement(_statement, explicitCb, more)`. -/
def Rdi.sendStatement (rdi : Rdi) (statement : JsVal) (more : Option More) : Deferred :=
  let options : CallOptions :=
    { datastoreName := rdi.datastoreName, adapter := rdi.adapter, statement := some statement }
  let options := match more with | some m => extendOptions options m | none => options
  { op := OpKind.sendStatement,
    genericError := rdi.genericError,
    isConnectable := rdi.isConnectable,
    isQueryable := rdi.isQueryable,
    isTransactional := rdi.isTransactional,
    options := options }

/-- Source lines 319-365: `rdi.sendNativeQuery(_nativeQuery, explicitCb, more)`. -/
def Rdi.sendNativeQuery (rdi : Rdi) (nativeQuery : JsVal) (more : Option More) : Deferred :=
  let options : CallOptions :=
    { datastoreName := rdi.datastoreName, adapter := rdi.adapter, nativeQuery := some nativeQuery }
  let options := match more with | some m => extendOptions options m | none => options
  { op := OpKind.sendNativeQuery,
    genericError := rdi.genericError,
    isConnectable := rdi.isConnectable,
    isQueryable := rdi.isQueryable,
    isTransactional := rdi.isTransactional,
    options := options }

/-- Source lines 381-421: `rdi.transaction(_during, explicitCb, more)`. -/
def Rdi.transaction (rdi : Rdi) (during : JsVal) (more : Option More) : Deferred :=
  let options : CallOptions :=
    { datastoreName := rdi.datastoreName, adapter := rdi.adapter, during := some during }
  let options := match more with | some m => extendOptions options m | none => options
  { op := OpKind.transaction,
    genericError := rdi.genericError,
    isConnectable := rdi.isConnectable,
    isQueryable := rdi.isQueryable,
    isTransactional := rdi.isTransactional,
    options := options }

/-- The `_handleExec` body shared in shape by all four methods (source
lines 216-231, 273-288, 334-349, 395-410): first the structural-error
check, then the interface-layer check (where an `undefined` flag is falsy,
modelled by `Option.getD false`), and only then delegation to the external
helper with the current call-options record. -/
def execDeferred (d : Deferred) : Outcome :=
  match d.genericError with
  | some err => Outcome.failed err
  | none =>
    match d.op with
    | OpKind.leaseConnection =>
      if !(d.isConnectable.getD false) then
        Outcome.failed { code := "E_NOT_SUPPORTED",
                         message := tierUnsupportedMessage "leaseConnection" "connectable" }
      else
        Outcome.delegated DelegationHelper.helpLeaseConnection d.options
    | OpKind.sendStatement =>
      if !(d.isQueryable.getD false) then
        Outcome.failed { code := "E_NOT_SUPPORTED",
                         message := tierUnsupportedMessage "sendStatement" "queryable" }
      else
        Outcome.delegated DelegationHelper.helpSendStatement d.options
    | OpKind.sendNativeQuery =>
      if !(d.isQueryable.getD false) then
        Outcome.failed { code := "E_NOT_SUPPORTED",
                         message := tierUnsupportedMessage "sendNativeQuery" "queryable" }
      else
        Outcome.delegated DelegationHelper.helpSendNativeQuery d.options
    | OpKind.transaction =>
      if !(d.isTransactional.getD false) then
        Outcome.failed { code := "E_NOT_SUPPORTED",
                         message := tierUnsupportedMessage "transaction" "transactional" }
      else
        Outcome.delegated DelegationHelper.helpRunTransaction d.options

/-- The chainable `.meta(...)` setter attached to all four deferreds
(source lines 235-238, 292-295, 353-356, 414-417): mutates `options.meta`
and returns the same deferred. -/
def Deferred.meta (d : Deferred) (m : JsVal) : Deferred :=
  { d with options := { d.options with meta := some m } }

/-- The chainable `.usingConnection(...)` setter, attached only to the
deferreds of `sendStatement` and `sendNativeQuery` (source lines 297-300
and 358-361); on the other two deferreds no such method exists, modelled by
`none`. -/
def Deferred.usingConnection (d : Deferred) (connection : JsVal) : Option Deferred :=
  match d.op with
  | OpKind.sendStatement =>
    some { d with options := { d.options with usingConnection := some connection } }
  | OpKind.sendNativeQuery =>
    some { d with options := { d.options with usingConnection := some connection } }
  | _ => none

/-- The interface-layer flag a deferred's `_handleExec` checks (with
JavaScript truthiness: an `undefined` flag counts as false). -/
def requiredTierFlag (d : Deferred) : Bool :=
  match d.op with
  | OpKind.leaseConnection => d.isConnectable.getD false
  | OpKind.sendStatement => d.isQueryable.getD false
  | OpKind.sendNativeQuery => d.isQueryable.getD false
  | OpKind.transaction => d.isTransactional.getD false

/-- The observable build verdict: `none` when registration threw, else the
three capability flags together with the kind of the terminal structural
error (when one is present). -/
def handleSignature (result : Except BuildException Rdi) :
    Option (Option Bool × Option Bool × Option Bool × Option String) :=
  match result with
  | .error _ => none
  | .ok rdi =>
    some (rdi.isConnectable, rdi.isQueryable, rdi.isTransactional,
          rdi.genericError.map (fun e => e.code))

/-! Concrete fixtures used by the theorems below. -/

/-- An opaque sample value. -/
def v0 : JsVal := { ref := 0 }

/-- A version-compatible adapter with no `datastores` property at all. -/
def noDatastoresAdapter : Adapter :=
  { adapterApiVersion := some 1, compatibleWithHost := true, datastores := none }

/-- The eleven driver method names required by the three interface layers. -/
def fullDriverMethodNames : List String :=
  CONNECTABLE_METHOD_NAMES ++ QUERYABLE_METHOD_NAMES ++ TRANSACTIONAL_METHOD_NAMES

/-- A version-compatible adapter whose `datastores.default` entry has
`manager`, `driver` and `config`, the driver exposing all eleven required
method names. -/
def fullAdapter : Adapter :=
  { adapterApiVersion := some 1, compatibleWithHost := true,
    datastores := some [("default",
      { manager := some { ref := 1 },
        driver := some fullDriverMethodNames,
        config := some { ref := 2 } })] }

/-- Like `fullAdapter`, but the driver exposes exactly the four connectable
method names and nothing else. -/
def connectableOnlyAdapter : Adapter :=
  { adapterApiVersion := some 1, compatibleWithHost := true,
    datastores := some [("default",
      { manager := some { ref := 1 },
        driver := some CONNECTABLE_METHOD_NAMES,
        config := some { ref := 2 } })] }

/-- Like `fullAdapter`, but the located entry is missing the mandatory
`manager` and `config` keys. -/
def incompleteEntryAdapter : Adapter :=
  { adapterApiVersion := some 1, compatibleWithHost := true,
    datastores := some [("default",
      { manager := none,
        driver := some CONNECTABLE_METHOD_NAMES,
        config := none })] }

/-- The structural error the code actually records for any adapter that has
a `datastores` property, instantiated at the name `"default"`. -/
def structuralErrDefault : FlavError :=
  { code := "E_NOT_SUPPORTED", message := msgNoDirectAccess "default" }

/-- The delegation helper each datastore method forwards to. -/
def helperFor : OpKind → DelegationHelper
  | OpKind.leaseConnection => DelegationHelper.helpLeaseConnection
  | OpKind.sendStatement => DelegationHelper.helpSendStatement
  | OpKind.sendNativeQuery => DelegationHelper.helpSendNativeQuery
  | OpKind.transaction => DelegationHelper.helpRunTransaction

/-- Helper: when the closed-over structural error is present, driving any
deferred to completion fails with exactly that error. -/
theorem execDeferred_of_genericError (d : Deferred) (err : FlavError)
    (h : d.genericError = some err) : execDeferred d = Outcome.failed err := by
  unfold execDeferred
  rw [h]

/-- Helper: when no structural error is present and the deferred's required
interface-layer flag is truthy, driving it to completion delegates to the
corresponding helper with the current call-options record. -/
theorem execDeferred_delegates (d : Deferred)
    (hg : d.genericError = none) (hf : requiredTierFlag d = true) :
    execDeferred d = Outcome.delegated (helperFor d.op) d.options := by
  obtain ⟨op, ge, c, q, t, o⟩ := d
  cases hg
  cases op <;> simp_all [execDeferred, requiredTierFlag, helperFor]

/-- Helper: delegation only happens when the structural check and the tier
check both passed. -/
theorem execDeferred_delegated_inv (d : Deferred) (h : DelegationHelper) (o : CallOptions)
    (hdel : execDeferred d = Outcome.delegated h o) :
    d.genericError = none ∧ requiredTierFlag d = true := by
  obtain ⟨op, ge, c, q, t, opts⟩ := d
  cases ge with
  | some err => simp [execDeferred] at hdel
  | none =>
    cases op <;> simp only [execDeferred] at hdel <;>
      refine ⟨rfl, ?_⟩ <;> simp only [requiredTierFlag] <;>
      by_contra hflag <;> simp_all

/-- C1: the claim (for every adapter without a `datastores` mapping, the
build produces a terminal structural `E_NOT_SUPPORTED` error and each of
the four operations fails with it) does not hold of the code: the guard on
source line 73 is inverted relative to its own comment, so for such an
adapter the `else` branch dereferences the `undefined` `datastores` value
on line 88 and registration throws a TypeError; no handle is built at all.
This theorem records the code's behaviour at the failing input. -/
theorem c1_missing_datastores_registration_throws :
    buildRegisteredDatastoreInstance "default" v0 noDatastoresAdapter =
      Except.error BuildException.typeErrorUndefinedDatastores := rfl

/-- C2: the claim (an adapter whose entry has `manager`, `driver`, `config`
and whose driver exposes all eleven required method names gets no terminal
error, and all four operations delegate) does not hold of the code: because
the line-73 guard is inverted, any adapter that HAS a `datastores` mapping
receives the terminal structural error, so every operation fails with the
structural `E_NOT_SUPPORTED` error and none delegates.  This theorem
records the code's behaviour at the failing input. -/
theorem c2_full_driver_still_fails_structurally :
    (buildRegisteredDatastoreInstance "default" v0 fullAdapter).map
      (fun rdi => (rdi.genericError,
                   execDeferred (rdi.leaseConnection v0 none),
                   execDeferred (rdi.sendStatement v0 none),
                   execDeferred (rdi.sendNativeQuery v0 none),
                   execDeferred (rdi.transaction v0 none)))
    = Except.ok (some structuralErrDefault,
                 Outcome.failed structuralErrDefault,
                 Outcome.failed structuralErrDefault,
                 Outcome.failed structuralErrDefault,
                 Outcome.failed structuralErrDefault) ∧
    structuralErrDefault.code = "E_NOT_SUPPORTED" :=
  ⟨rfl, rfl⟩

/-- C3: for every adapter object with no own `datastores` property (and
which passes the version-compatibility gate),
`buildRegisteredDatastoreInstance` throws synchronously during registration
with the TypeError from dereferencing the `undefined` `datastores` value,
so no handle is returned. -/
theorem c3_no_own_datastores_throws (name : String) (cfg : JsVal) (a : Adapter)
    (hds : a.datastores = none) (hcompat : checkAdapterCompatibility a = true) :
    buildRegisteredDatastoreInstance name cfg a =
      Except.error BuildException.typeErrorUndefinedDatastores := by
  simp [buildRegisteredDatastoreInstance, locateGenericError, hds, hcompat]

/-- Witness for C3 at a concrete compatible adapter with no `datastores`. -/
theorem c3_witness :
    noDatastoresAdapter.datastores = none ∧
    checkAdapterCompatibility noDatastoresAdapter = true ∧
    buildRegisteredDatastoreInstance "orders" v0 noDatastoresAdapter =
      Except.error BuildException.typeErrorUndefinedDatastores :=
  ⟨rfl, rfl, c3_no_own_datastores_throws "orders" v0 noDatastoresAdapter rfl rfl⟩

/-- C4: the claim (for a driver exposing exactly the four connectable
method names, `leaseConnection` reaches delegation while the other three
fail with tier errors naming "queryable"/"transactional") does not hold of
the code: the inverted line-73 guard gives such an adapter the terminal
structural error, so all four operations fail with the structural error —
`leaseConnection` never delegates and the tier messages never appear.  This
theorem records the code's behaviour at the failing input. -/
theorem c4_connectable_only_all_ops_fail_structurally :
    (buildRegisteredDatastoreInstance "default" v0 connectableOnlyAdapter).map
      (fun rdi => (execDeferred (rdi.leaseConnection v0 none),
                   execDeferred (rdi.sendStatement v0 none),
                   execDeferred (rdi.sendNativeQuery v0 none),
                   execDeferred (rdi.transaction v0 none)))
    = Except.ok (Outcome.failed structuralErrDefault,
                 Outcome.failed structuralErrDefault,
                 Outcome.failed structuralErrDefault,
                 Outcome.failed structuralErrDefault) ∧
    structuralErrDefault.message ≠ tierUnsupportedMessage "sendStatement" "queryable" ∧
    structuralErrDefault.message ≠ tierUnsupportedMessage "transaction" "transactional" :=
  ⟨rfl, by decide, by decide⟩

/-- C5: on every built handle whose terminal structural error is set, each
of the four operations fails with exactly that error object regardless of
the tier flags; and in every invocation the structural check and the tier
check precede delegation: a deferred only delegates when the structural
error is absent and its required interface-layer flag is truthy. -/
theorem c5_structural_error_preempts :
    (∀ (name : String) (cfg : JsVal) (a : Adapter) (rdi : Rdi) (err : FlavError),
        buildRegisteredDatastoreInstance name cfg a = Except.ok rdi →
        rdi.genericError = some err →
        ∀ (v : JsVal) (more : Option More),
          execDeferred (rdi.leaseConnection v more) = Outcome.failed err ∧
          execDeferred (rdi.sendStatement v more) = Outcome.failed err ∧
          execDeferred (rdi.sendNativeQuery v more) = Outcome.failed err ∧
          execDeferred (rdi.transaction v more) = Outcome.failed err) ∧
    (∀ (d : Deferred) (h : DelegationHelper) (o : CallOptions),
        execDeferred d = Outcome.delegated h o →
        d.genericError = none ∧ requiredTierFlag d = true) := by
  constructor
  · intro name cfg a rdi err _hbuild hgen v more
    exact ⟨execDeferred_of_genericError _ err hgen,
           execDeferred_of_genericError _ err hgen,
           execDeferred_of_genericError _ err hgen,
           execDeferred_of_genericError _ err hgen⟩
  · intro d h o hdel
    exact execDeferred_delegated_inv d h o hdel

/-- A handle state actually produced by the build (for `fullAdapter`): the
terminal structural error is set and the flags were left undefined. -/
def rdiStructuralErr : Rdi :=
  { datastoreName := "default", internalConfig := v0, adapter := fullAdapter,
    genericError := some structuralErrDefault,
    isConnectable := none, isQueryable := none, isTransactional := none }

/-- A deferred whose dispatch state lets it delegate. -/
def dDelegating : Deferred :=
  { op := OpKind.leaseConnection, genericError := none,
    isConnectable := some true, isQueryable := some true, isTransactional := some true,
    options := { datastoreName := "default", adapter := fullAdapter, during := some v0 } }

/-- Witness for C5 at concrete inputs. -/
theorem c5_witness :
    (execDeferred (rdiStructuralErr.leaseConnection v0 none) = Outcome.failed structuralErrDefault ∧
     execDeferred (rdiStructuralErr.sendStatement v0 none) = Outcome.failed structuralErrDefault ∧
     execDeferred (rdiStructuralErr.sendNativeQuery v0 none) = Outcome.failed structuralErrDefault ∧
     execDeferred (rdiStructuralErr.transaction v0 none) = Outcome.failed structuralErrDefault) ∧
    (dDelegating.genericError = none ∧ requiredTierFlag dDelegating = true) :=
  ⟨c5_structural_error_preempts.1 "default" v0 fullAdapter rdiStructuralErr
      structuralErrDefault rfl rfl v0 none,
   c5_structural_error_preempts.2 dDelegating DelegationHelper.helpLeaseConnection
      dDelegating.options rfl⟩

/-- C6: the claim (an entry lacking any of `manager`, `driver`, `config`
yields the terminal structural error with the "incomplete instance
reference" message) does not hold of the code: because the line-73 guard is
inverted, any adapter with a `datastores` mapping — entry complete or not —
gets the FIRST branch's generic "does not expose internal datastores"
message; the incomplete-entry message on lines 107-112 is unreachable.  The
error kind and the fact that all operations fail with it do hold.  This
theorem records the code's behaviour at the failing input. -/
theorem c6_incomplete_entry_gets_generic_message :
    (buildRegisteredDatastoreInstance "default" v0 incompleteEntryAdapter).map
      (fun rdi => (rdi.genericError,
                   execDeferred (rdi.leaseConnection v0 none),
                   execDeferred (rdi.sendStatement v0 none),
                   execDeferred (rdi.sendNativeQuery v0 none),
                   execDeferred (rdi.transaction v0 none)))
    = Except.ok (some structuralErrDefault,
                 Outcome.failed structuralErrDefault,
                 Outcome.failed structuralErrDefault,
                 Outcome.failed structuralErrDefault,
                 Outcome.failed structuralErrDefault) ∧
    structuralErrDefault.message ≠ msgIncompleteEntry "default" :=
  ⟨rfl, by decide⟩

/-- C7: the capability flags are cumulative: for every driver operation
table (list of method names), a true `isTransactional` forces a true
`isQueryable`, and a true `isQueryable` forces a true `isConnectable`; no
driver table produces a higher tier without the lower one. -/
theorem c7_capability_tiers_cumulative (driverMethodNames : List String) :
    (isTransactionalOf driverMethodNames = true → isQueryableOf driverMethodNames = true) ∧
    (isQueryableOf driverMethodNames = true → isConnectableOf driverMethodNames = true) := by
  constructor
  · intro h
    unfold isTransactionalOf at h
    exact (Bool.and_eq_true _ _ |>.mp h).1
  · intro h
    unfold isQueryableOf at h
    exact (Bool.and_eq_true _ _ |>.mp h).1

/-- Witness for C7 at the full eleven-method driver table. -/
theorem c7_witness :
    isQueryableOf fullDriverMethodNames = true ∧
    isConnectableOf fullDriverMethodNames = true :=
  ⟨(c7_capability_tiers_cumulative fullDriverMethodNames).1 (by decide),
   (c7_capability_tiers_cumulative fullDriverMethodNames).2 (by decide)⟩

/-- C8: building a handle is deterministic and idempotent: two calls of
`buildRegisteredDatastoreInstance` on equal instance name, config and
adapter agree on the capability flag values and on the presence and kind of
the terminal structural error (and on whether registration threw). -/
theorem c8_build_deterministic (name name2 : String) (cfg cfg2 : JsVal) (a a2 : Adapter)
    (hn : name = name2) (hc : cfg = cfg2) (ha : a = a2) :
    handleSignature (buildRegisteredDatastoreInstance name cfg a) =
      handleSignature (buildRegisteredDatastoreInstance name2 cfg2 a2) := by
  subst hn
  subst hc
  subst ha
  rfl

/-- Witness for C8 at concrete inputs. -/
theorem c8_witness :
    handleSignature (buildRegisteredDatastoreInstance "default" v0 fullAdapter) =
      handleSignature (buildRegisteredDatastoreInstance "default" v0 fullAdapter) :=
  c8_build_deterministic "default" "default" v0 v0 fullAdapter fullAdapter rfl rfl rfl

/-- A handle state with full capability and no structural error, used to
exercise the delegation path of the four methods. -/
def rdiCap : Rdi :=
  { datastoreName := "default", internalConfig := v0, adapter := fullAdapter,
    genericError := none, isConnectable := some true, isQueryable := some true,
    isTransactional := some true }

/-- C9: the chainable setters (`.meta(...)` on all four deferreds,
`.usingConnection(...)` on the `sendStatement` and `sendNativeQuery`
deferreds) mutate exactly the corresponding field of the invocation's
call-options record and return the same deferred (no other field changes,
and no execution outcome is produced by the setter itself); the value set
is the one present in the options record handed to the delegation helper
when execution runs. -/
theorem c9_chainable_setters (rdi : Rdi) (arg m c : JsVal) (more : Option More) :
    ((rdi.leaseConnection arg more).meta m =
       { rdi.leaseConnection arg more with
         options := { (rdi.leaseConnection arg more).options with meta := some m } }) ∧
    ((rdi.sendStatement arg more).meta m =
       { rdi.sendStatement arg more with
         options := { (rdi.sendStatement arg more).options with meta := some m } }) ∧
    ((rdi.sendNativeQuery arg more).meta m =
       { rdi.sendNativeQuery arg more with
         options := { (rdi.sendNativeQuery arg more).options with meta := some m } }) ∧
    ((rdi.transaction arg more).meta m =
       { rdi.transaction arg more with
         options := { (rdi.transaction arg more).options with meta := some m } }) ∧
    ((rdi.sendStatement arg more).usingConnection c =
       some { rdi.sendStatement arg more with
              options := { (rdi.sendStatement arg more).options with
                           usingConnection := some c } }) ∧
    ((rdi.sendNativeQuery arg more).usingConnection c =
       some { rdi.sendNativeQuery arg more with
              options := { (rdi.sendNativeQuery arg more).options with
                           usingConnection := some c } }) ∧
    (rdi.genericError = none → rdi.isQueryable = some true →
       execDeferred ((rdi.sendStatement arg more).meta m) =
         Outcome.delegated DelegationHelper.helpSendStatement
           { (rdi.sendStatement arg more).options with meta := some m }) := by
  refine ⟨rfl, rfl, rfl, rfl, rfl, rfl, ?_⟩
  intro hg hq
  refine execDeferred_delegates _ hg ?_
  show rdi.isQueryable.getD false = true
  rw [hq]
  rfl

/-- Witness for C9 at concrete inputs. -/
theorem c9_witness :
    execDeferred ((rdiCap.sendStatement v0 none).meta { ref := 9 }) =
      Outcome.delegated DelegationHelper.helpSendStatement
        { (rdiCap.sendStatement v0 none).options with meta := some { ref := 9 } } :=
  (c9_chainable_setters rdiCap v0 { ref := 9 } { ref := 8 } none).2.2.2.2.2.2 rfl rfl

/-- C10: the optional third argument `more` is shallow-merged over the
freshly assembled call-options record of the invocation: each operation's
options equal `extendOptions` of its assembled base record with `more`, any
key `more` supplies (including `datastoreName`, `adapter`, the primary
argument field, `meta`, `usingConnection`) replaces the assembled value,
and when execution delegates, the helper receives the merged record. -/
theorem c10_more_shallow_merge (rdi : Rdi) (arg : JsVal) (m : More) :
    ((rdi.leaseConnection arg (some m)).options =
       extendOptions { datastoreName := rdi.datastoreName, adapter := rdi.adapter,
                       during := some arg } m) ∧
    ((rdi.sendStatement arg (some m)).options =
       extendOptions { datastoreName := rdi.datastoreName, adapter := rdi.adapter,
                       statement := some arg } m) ∧
    ((rdi.sendNativeQuery arg (some m)).options =
       extendOptions { datastoreName := rdi.datastoreName, adapter := rdi.adapter,
                       nativeQuery := some arg } m) ∧
    ((rdi.transaction arg (some m)).options =
       extendOptions { datastoreName := rdi.datastoreName, adapter := rdi.adapter,
                       during := some arg } m) ∧
    (∀ (o : CallOptions),
       (∀ s, m.datastoreName = some s → (extendOptions o m).datastoreName = s) ∧
       (∀ a2, m.adapter = some a2 → (extendOptions o m).adapter = a2) ∧
       (∀ v, m.during = some v → (extendOptions o m).during = some v) ∧
       (∀ v, m.statement = some v → (extendOptions o m).statement = some v) ∧
       (∀ v, m.nativeQuery = some v → (extendOptions o m).nativeQuery = some v) ∧
       (∀ v, m.meta = some v → (extendOptions o m).meta = some v) ∧
       (∀ v, m.usingConnection = some v → (extendOptions o m).usingConnection = some v)) ∧
    (rdi.genericError = none → rdi.isConnectable = some true →
       execDeferred (rdi.leaseConnection arg (some m)) =
         Outcome.delegated DelegationHelper.helpLeaseConnection
           (extendOptions { datastoreName := rdi.datastoreName, adapter := rdi.adapter,
                            during := some arg } m)) := by
  refine ⟨rfl, rfl, rfl, rfl, ?_, ?_⟩
  · intro o
    refine ⟨?_, ?_, ?_, ?_, ?_, ?_, ?_⟩ <;> intro x hx <;> simp [extendOptions, hx]
  · intro hg hc
    refine execDeferred_delegates _ hg ?_
    show rdi.isConnectable.getD false = true
    rw [hc]
    rfl

/-- A sample `more` dictionary overriding `datastoreName` and `meta`. -/
def moreSample : More := { datastoreName := some "other", meta := some { ref := 9 } }

/-- Witness for C10 at concrete inputs. -/
theorem c10_witness :
    execDeferred (rdiCap.leaseConnection v0 (some moreSample)) =
      Outcome.delegated DelegationHelper.helpLeaseConnection
        (extendOptions { datastoreName := rdiCap.datastoreName, adapter := rdiCap.adapter,
                         during := some v0 } moreSample) ∧
    (extendOptions { datastoreName := rdiCap.datastoreName, adapter := rdiCap.adapter,
                     during := some v0 } moreSample).datastoreName = "other" :=
  ⟨(c10_more_shallow_merge rdiCap v0 moreSample).2.2.2.2.2 rfl rfl,
   ((c10_more_shallow_merge rdiCap v0 moreSample).2.2.2.2.1
      { datastoreName := rdiCap.datastoreName, adapter := rdiCap.adapter,
        during := some v0 }).1 "other" rfl⟩

end SailsHookOrm
